import Mathlib

/-!
Shallow embedding of the `script_with_mail` repository
(`src/connect_to_imap_server.py`, `src/search_emails.py`, `src/main.py`).

The repository is a linear IMAP automation script.  External collaborators
(the `imaplib` client library, the mail server, and the standard library's
header codec) are modelled as oracle environments: each network call is a
function from the request to the typed `(status, payload)` response the
spec describes, and each library decode step that may raise is a function
into `Except`.  Side effects (network operations and log lines) are made
observable as an event trace returned alongside each function's value, and
a Python exception escaping a function is modelled by an `Except` error
result.
-/

namespace ScriptWithMail

/-- Date value as produced by `datetime.strptime(s, "%d-%b-%Y")`: the time
fields are always midnight for this format, so only year, month and day are
carried.  Bounds follow `datetime`: `1 ≤ year ≤ 9999`, enforced where dates
are created. -/
structure Date where
  year : Nat
  month : Nat
  day : Nat
deriving DecidableEq, Repr

/-- Gregorian leap-year rule used by `datetime` for day-of-month validation. -/
def isLeapYear (y : Nat) : Bool :=
  y % 4 == 0 && (y % 100 != 0 || y % 400 == 0)

/-- Number of days in a month, as `datetime` validates the `day` field. -/
def daysInMonth (y m : Nat) : Nat :=
  if m == 2 then (if isLeapYear y then 29 else 28)
  else if m == 4 || m == 6 || m == 9 || m == 11 then 30
  else 31

/-- Strict order on dates: the comparison `start >= end` in
`validate_date_range` compares `datetime` values, which for this format is
the lexicographic order on (year, month, day). -/
def dateLt (a b : Date) : Bool :=
  if a.year < b.year then true
  else if b.year < a.year then false
  else if a.month < b.month then true
  else if b.month < a.month then false
  else decide (a.day < b.day)

/-- Reflexive order on dates, `a ≤ b`. -/
def dateLe (a b : Date) : Bool :=
  dateLt a b || a == b

/-- Split a character list at every `-`, keeping empty fields, as
`str.split("-")` would (specialised to this format's literal separator). -/
def splitDashAux : List Char → List Char → List (List Char)
  | [], acc => [acc.reverse]
  | c :: cs, acc =>
    if c == '-' then acc.reverse :: splitDashAux cs []
    else splitDashAux cs (c :: acc)

/-- Fields of a string delimited by `-`. -/
def splitDash (s : String) : List (List Char) :=
  splitDashAux s.data []

/-- Numeric value of a digit string. -/
def digitsVal (cs : List Char) : Nat :=
  cs.foldl (fun a c => a * 10 + (c.toNat - 48)) 0

/-- ASCII lower-casing as `%b` matches month names case-insensitively. -/
def lowerChar (c : Char) : Char :=
  if 65 ≤ c.toNat && c.toNat ≤ 90 then Char.ofNat (c.toNat + 32) else c

/-- Lower-cased English month abbreviations recognised by `%b` (C locale). -/
def monthAbbrs : List String :=
  ["jan", "feb", "mar", "apr", "may", "jun",
   "jul", "aug", "sep", "oct", "nov", "dec"]

/-- Field parse for `%b`: the month abbreviation, matched case-insensitively,
yielding the month number 1..12. -/
def parseMonthAbbr (cs : List Char) : Option Nat :=
  match monthAbbrs.findIdx? (fun a => a == String.mk (cs.map lowerChar)) with
  | some i => some (i + 1)
  | none => none

/-- Field parse for `%d`: one or two digits with value 1..31 (leading zero
allowed, "0" and "00" rejected), exactly CPython's pattern
`3[01]|[12]\d|0[1-9]|[1-9]`. -/
def parseDayField (cs : List Char) : Option Nat :=
  if (cs.length == 1 || cs.length == 2) && cs.all Char.isDigit then
    let v := digitsVal cs
    if 1 ≤ v && v ≤ 31 then some v else none
  else none

/-- Field parse for `%Y`: exactly four digits; year 0 is then rejected by the
`datetime` constructor (`MINYEAR = 1`). -/
def parseYearField (cs : List Char) : Option Nat :=
  if cs.length == 4 && cs.all Char.isDigit then
    let v := digitsVal cs
    if 1 ≤ v then some v else none
  else none

/-- Behaviour of `datetime.strptime(s, "%d-%b-%Y")`, returning `none` where
Python raises `ValueError`: the string must be day `-` month-abbreviation `-`
four-digit year with nothing left over, and the day must exist in the given
month and year. -/
def strptimeDMY (s : String) : Option Date :=
  match splitDash s with
  | [d, m, y] =>
    match parseDayField d, parseMonthAbbr m, parseYearField y with
    | some dd, some mm, some yy =>
      if dd ≤ daysInMonth yy mm then some ⟨yy, mm, dd⟩ else none
    | _, _, _ => none
  | _ => none

/-- Zero-pad a number to two digits, as `%d` formats the day. -/
def pad2 (n : Nat) : String :=
  if n < 10 then "0" ++ toString n else toString n

/-- Zero-pad a number to four digits, as `%Y` formats the years in range
here (all dates reaching `strftime` come from four-digit `strptime` input,
possibly moved one day forward). -/
def pad4 (n : Nat) : String :=
  if n < 10 then "000" ++ toString n
  else if n < 100 then "00" ++ toString n
  else if n < 1000 then "0" ++ toString n
  else toString n

/-- Capitalised English month abbreviation emitted by `%b`. -/
def monthName (m : Nat) : String :=
  (["Jan", "Feb", "Mar", "Apr", "May", "Jun",
    "Jul", "Aug", "Sep", "Oct", "Nov", "Dec"]).getD (m - 1) ""

/-- Behaviour of `date.strftime("%d-%b-%Y")`. -/
def strftimeDMY (d : Date) : String :=
  pad2 d.day ++ "-" ++ monthName d.month ++ "-" ++ pad4 d.year

/-- Behaviour of `d + timedelta(days=1)`: the next calendar day, or `none`
where Python raises `OverflowError` (stepping past `9999-12-31`,
`datetime.MAXYEAR`). -/
def addOneDay (d : Date) : Option Date :=
  if d.day < daysInMonth d.year d.month then some ⟨d.year, d.month, d.day + 1⟩
  else if d.month < 12 then some ⟨d.year, d.month + 1, 1⟩
  else if d.year < 9999 then some ⟨d.year + 1, 1, 1⟩
  else none

/-- Python exceptions that escape the searcher's functions.
`parseError s` is the `ValueError` raised by `strptime` on input `s`;
`rangeError` is the `ValueError("start_date must be before end_date")`
raised by `validate_date_range`; `overflowError` is the `OverflowError`
from `datetime + timedelta` past the maximum year. -/
inductive PyErr
  | parseError (input : String)
  | rangeError
  | overflowError
deriving DecidableEq, Repr

/-- Embedding of `validate_date_range(start_date, end_date, date_format)`
(src/search_emails.py lines 15-26), instantiated at the only format either
caller passes, `DATE_FORMAT = "%d-%b-%Y"`.  It parses `start_date`, then
`end_date` (each raising a parse `ValueError` on mismatch), and raises the
range `ValueError` when `start >= end`; on success it returns `()` as the
Python function returns `None`. -/
def validate_date_range (start_date end_date : String) : Except PyErr Unit :=
  match strptimeDMY start_date with
  | none => .error (.parseError start_date)
  | some s =>
    match strptimeDMY end_date with
    | none => .error (.parseError end_date)
    | some e =>
      if dateLe e s then .error .rangeError else .ok ()

/-- Observable events of one run: network requests issued on the IMAP
session and log lines emitted through the `logging` module. -/
inductive Ev
  | selectOp (mailbox : String)
  | searchOp (query : String)
  | fetchOp (emailId : String)
  | logoutOp
  | logInfo (msg : String)
  | logWarn (msg : String)
  | logError (msg : String)
deriving DecidableEq, Repr

/-- Python value reaching `decode_text`: either an already-decoded `str` or
a raw `bytes` header value (bytes as their numeric values). -/
inductive PyText
  | str (s : String)
  | bytes (b : List Nat)
deriving DecidableEq, Repr

/-- Oracle for the standard library's header codec, an external
collaborator. `hdrDecode b` is `str(make_header(decode_header(b)))`, which
may raise (modelled as `.error` with the exception text); `rawDecode b` is
`b.decode("utf-8", errors="replace")` at the default charset the callers
never override — total, because `errors="replace"` substitutes U+FFFD for
undecodable bytes and never raises. -/
structure DecodeEnv where
  hdrDecode : List Nat → Except String String
  rawDecode : List Nat → String

/-- Embedding of `decode_text(text, default_charset="utf-8")`
(src/search_emails.py lines 74-105).  `None` yields `""` (after a warning
log, not tracked here since the function is pure in the source but for
logging); a `str` passes through unchanged (nothing in the `try` block can
raise for it); `bytes` go through the header codec, and on any exception
the fallback raw decode under the default charset is returned.  The Lean
function is total: no input makes it raise. -/
def decode_text (env : DecodeEnv) (text : Option PyText) : String :=
  match text with
  | none => ""
  | some (.str s) => s
  | some (.bytes b) =>
    match env.hdrDecode b with
    | .ok s => s
    | .error _ => env.rawDecode b

/-- One MIME part as `email_message.walk()` yields it: its content
maintype, its `Content-Disposition` header (absent for non-attachment
parts), and the `part.get_filename()` value that `decode_text` receives. -/
structure EmailPart where
  maintype : String
  contentDisposition : Option String
  filename : Option PyText
deriving DecidableEq, Repr

/-- A parsed message as `email.message_from_bytes` produces it: the
`subject` and `from` header values and the walked list of MIME parts. -/
structure EmailMessage where
  subject : Option PyText
  sender : Option PyText
  parts : List EmailPart
deriving DecidableEq, Repr

/-- Oracle for the connected IMAP server: the typed `(status, payload)`
response to each request the script issues.  `selectResp` is never
consulted because the source discards `select`'s return value;
`searchResp` maps the criteria string to `(typ, data[0])` with the payload
already decoded from bytes; `fetchResp` maps a message identifier to
`(typ, message)` where the message is the parse of `data[0][1]`. -/
structure ImapSession where
  selectResp : String → String × String
  searchResp : String → String × String
  fetchResp : String → String × EmailMessage

/-- The IMAP search criteria string built at src/search_emails.py line 46. -/
def searchQuery (sinceD beforeD : String) : String :=
  "(SINCE \"" ++ sinceD ++ "\" BEFORE \"" ++ beforeD ++ "\")"

/-- ASCII whitespace, the separator class of `bytes.split()` with no
arguments. -/
def isSpaceChar (c : Char) : Bool :=
  c == ' ' || c == '\t' || c == '\n' || c == '\r' || c.toNat == 11 || c.toNat == 12

/-- Split on runs of whitespace discarding empty fields, as
`data[0].split()` does at src/search_emails.py line 53. -/
def splitWsAux : List Char → List Char → List String
  | [], acc => if acc.isEmpty then [] else [String.mk acc.reverse]
  | c :: cs, acc =>
    if isSpaceChar c then
      if acc.isEmpty then splitWsAux cs []
      else String.mk acc.reverse :: splitWsAux cs []
    else splitWsAux cs (c :: acc)

/-- Identifier list recovered from the search payload:
`[email_id.decode("utf-8") for email_id in data[0].split()]`, with the
payload modelled as the already-decoded string. -/
def splitImapIds (payload : String) : List String :=
  splitWsAux payload.data []

/-- Embedding of `search_emails(imap_session, mailbox, start_date,
end_date)` (src/search_emails.py lines 29-54), returning the event trace
alongside the Python result.  It first runs `validate_date_range` (whose
two parses and comparison are inlined here; line 38 and lines 41-44 parse
the same strings with the same fixed format, so the parses agree), then
selects the mailbox, builds the criteria from the reformatted start date
and the end date moved forward one day, issues the search, and on a
non-`"OK"` status logs an error and returns `[]`; a `ValueError` from
validation or an `OverflowError` from the day step escapes as `.error`. -/
def search_emails (sess : ImapSession) (mailbox start_date end_date : String) :
    List Ev × Except PyErr (List String) :=
  match strptimeDMY start_date with
  | none => ([], .error (.parseError start_date))
  | some s =>
    match strptimeDMY end_date with
    | none => ([], .error (.parseError end_date))
    | some e =>
      if dateLe e s then ([], .error .rangeError)
      else
        let sinceD := strftimeDMY s
        match addOneDay e with
        | none => ([Ev.selectOp mailbox], .error .overflowError)
        | some e1 =>
          let q := searchQuery sinceD (strftimeDMY e1)
          let (typ, payload) := sess.searchResp q
          if typ != "OK" then
            ([Ev.selectOp mailbox, Ev.searchOp q,
              Ev.logError ("Error searching Inbox. IMAP search did not return \"OK\".")],
             .ok [])
          else
            ([Ev.selectOp mailbox, Ev.searchOp q], .ok (splitImapIds payload))

/-- Python's `str.endswith(suffix)`: exact, case-sensitive suffix test. -/
def pyEndsWith (s suffix : String) : Bool :=
  suffix.data.isSuffixOf s.data

/-- Body of the inner `for part in email_message.walk()` loop
(src/search_emails.py lines 128-134) for one part: multipart containers
and parts without a `Content-Disposition` header are skipped; otherwise
the decoded filename is kept when it is truthy (non-empty) and ends with
the target extension. -/
def scanPart (env : DecodeEnv) (file_extension subject sender : String)
    (part : EmailPart) : List Ev × List (String × String × String) :=
  if part.maintype == "multipart" || part.contentDisposition.isNone then ([], [])
  else
    let file_name := decode_text env part.filename
    if file_name != "" && pyEndsWith file_name file_extension then
      ([Ev.logInfo ("Found attachment: " ++ file_name)], [(subject, sender, file_name)])
    else ([], [])

/-- The inner part loop over the whole walked part list, in order. -/
def scanParts (env : DecodeEnv) (file_extension subject sender : String) :
    List EmailPart → List Ev × List (String × String × String)
  | [] => ([], [])
  | part :: rest =>
    let r := scanPart env file_extension subject sender part
    let rr := scanParts env file_extension subject sender rest
    (r.1 ++ rr.1, r.2 ++ rr.2)

/-- Records and log lines contributed by one successfully fetched message
(src/search_emails.py lines 124-134): decode the subject and sender once,
then scan every part. -/
def scanMessage (env : DecodeEnv) (file_extension : String) (msg : EmailMessage) :
    List Ev × List (String × String × String) :=
  scanParts env file_extension (decode_text env msg.subject)
    (decode_text env msg.sender) msg.parts

/-- Body of the outer `for email_id in email_ids` loop
(src/search_emails.py lines 117-134) for one identifier: log, fetch; a
non-`"OK"` fetch status is logged and contributes no records (`continue`);
otherwise the fetched message is scanned. -/
def processEmailId (env : DecodeEnv) (sess : ImapSession) (file_extension : String)
    (email_id : String) : List Ev × List (String × String × String) :=
  let pre := [Ev.logInfo ("Processing email ID: " ++ email_id), Ev.fetchOp email_id]
  let (typ, msg) := sess.fetchResp email_id
  if typ != "OK" then
    (pre ++ [Ev.logError ("Failed to fetch email ID " ++ email_id ++ ".")], [])
  else
    let r := scanMessage env file_extension msg
    (pre ++ r.1, r.2)

/-- The outer loop over all identifiers, appending each identifier's
records to the shared accumulator in order. -/
def processAllIds (env : DecodeEnv) (sess : ImapSession) (file_extension : String) :
    List String → List Ev × List (String × String × String)
  | [] => ([], [])
  | email_id :: rest =>
    let r := processEmailId env sess file_extension email_id
    let rr := processAllIds env sess file_extension rest
    (r.1 ++ rr.1, r.2 ++ rr.2)

/-- Embedding of `get_attachments_info(imap_session, email_ids,
file_extension)` (src/search_emails.py lines 108-138): runs the outer loop
over the identifiers, logs the final count, and returns the collected
`(subject, sender, filename)` triples. -/
def get_attachments_info (env : DecodeEnv) (sess : ImapSession)
    (email_ids : List String) (file_extension : String) :
    List Ev × List (String × String × String) :=
  let folded := processAllIds env sess file_extension email_ids
  (folded.1 ++ [Ev.logInfo ("Completed processing emails. Found " ++
      toString folded.2.length ++ " attachments.")], folded.2)

/-- The protocol-level error class `imaplib.IMAP4.error`, the one exception
class the connection code catches. -/
inductive ImapError
  | protoError (msg : String)
deriving DecidableEq, Repr

/-- Oracle for the `imaplib` client seen by the connector, parametric in
the session handle type: `sslConnect` is the `IMAP4_SSL(server)`
constructor and `loginResp` the `login` call, each either returning its
value or raising a protocol-level `imaplib.IMAP4.error`. -/
structure ConnEnv (σ : Type) where
  sslConnect : String → Except ImapError σ
  loginResp : σ → String → String → Except ImapError (String × String)

/-- Embedding of `connect_to_imap_server(server, username, password)`
(src/connect_to_imap_server.py lines 12-38): connects and logs in inside a
`try` whose `except imaplib.IMAP4.error` arm logs and returns `None`; a
non-`"OK"` login status also logs and returns `None`; otherwise the
session is returned.  The function is total — no modelled exception
escapes to the caller. -/
def connect_to_imap_server {σ : Type} (env : ConnEnv σ)
    (server username password : String) : List Ev × Option σ :=
  match env.sslConnect server with
  | .error (.protoError m) => ([Ev.logError ("IMAP login error: " ++ m)], none)
  | .ok sess =>
    match env.loginResp sess username password with
    | .error (.protoError m) => ([Ev.logError ("IMAP login error: " ++ m)], none)
    | .ok (typ, _) =>
      if typ != "OK" then ([Ev.logError ("Not able to sign in!")], none)
      else ([Ev.logInfo ("IMAP connection successful")], some sess)

/-- Oracle for `imap_session.logout()`: the `(typ, data)` response of the
server's `LOGOUT` exchange. -/
structure CloseEnv (σ : Type) where
  logoutResp : σ → String × String

/-- Embedding of `close_imap_session(imap_session)`
(src/connect_to_imap_server.py lines 41-51), over an optional session as
`main` holds one (`None` until connected): when a session is present,
`logout()` is called and its response is discarded; when absent, nothing
happens. -/
def close_imap_session {σ : Type} (env : CloseEnv σ)
    (imap_session : Option σ) : List Ev × Unit :=
  match imap_session with
  | none => ([], ())
  | some s =>
    let _resp := env.logoutResp s
    ([Ev.logoutOp], ())

/-- IMAP `SEARCH` date-semantics of the mail server (RFC 3501): a message
whose internal date is `msgDate` matches `(SINCE a BEFORE b)` exactly when
`a ≤ msgDate` (inclusive) and `msgDate < b` (exclusive); the comparison is
date-only, not time-bounded. -/
def imapDateMatch (msgDate since before : Date) : Bool :=
  dateLe since msgDate && dateLt msgDate before

/-- Attachment filter condition of src/search_emails.py lines 129-132 for
one part, gathered into a single predicate: not a multipart container,
carries a `Content-Disposition` header, and its decoded filename is truthy
and ends with the target extension. -/
def partIsMatch (env : DecodeEnv) (file_extension : String) (p : EmailPart) : Bool :=
  !(p.maintype == "multipart") && !p.contentDisposition.isNone &&
  decode_text env p.filename != "" && pyEndsWith (decode_text env p.filename) file_extension

/-- Fixture codec whose header decode always raises, driving `decode_text`
into its fallback branch. -/
def failEnv : DecodeEnv :=
  ⟨fun _ => .error ("unknown encoding"), fun _ => "fallback"⟩

/-- Fixture message with one multipart container part and one PDF
attachment named invoice.pdf. -/
def invoiceMsg : EmailMessage :=
  ⟨some (.str ("Invoice March")), some (.str ("billing@example.com")),
   [⟨"multipart", none, none⟩,
    ⟨"application", some ("attachment"), some (.str ("invoice.pdf"))⟩]⟩

/-- Fixture message with one PDF attachment named report.pdf. -/
def reportMsg : EmailMessage :=
  ⟨some (.str ("Report")), some (.str ("alice@example.com")),
   [⟨"application", some ("attachment"), some (.str ("report.pdf"))⟩]⟩

/-- Fixture server: search finds identifiers 1 2 3; fetching identifier 2
fails with a `"NO"` status while 1 and 3 succeed. -/
def fixtureSess : ImapSession :=
  ⟨fun _ => ("OK", ""),
   fun _ => ("OK", "1 2 3"),
   fun i => if i == "2" then ("NO", invoiceMsg)
            else if i == "3" then ("OK", reportMsg)
            else ("OK", invoiceMsg)⟩

/-- Fixture server whose search request is answered with a `"NO"` status. -/
def failSess : ImapSession :=
  ⟨fun _ => ("OK", ""), fun _ => ("NO", ""), fun _ => ("OK", invoiceMsg)⟩

/-- Fixture `imaplib` oracle whose SSL constructor raises a protocol
error. -/
def connEnvDown : ConnEnv Nat :=
  ⟨fun _ => .error (.protoError ("no route to host")), fun _ _ _ => .ok ("OK", "ack")⟩

/-- Fixture `imaplib` oracle that connects but answers login with `"NO"`. -/
def connEnvBadLogin : ConnEnv Nat :=
  ⟨fun _ => .ok 7, fun _ _ _ => .ok ("NO", "denied")⟩

/-! Helper lemmas about the date order. -/

lemma dateLt_iff (a b : Date) : dateLt a b = true ↔
    (a.year < b.year ∨ (a.year = b.year ∧
      (a.month < b.month ∨ (a.month = b.month ∧ a.day < b.day)))) := by
  obtain ⟨y1, m1, d1⟩ := a
  obtain ⟨y2, m2, d2⟩ := b
  simp only [dateLt]
  split_ifs <;> simp <;> omega

lemma dateLt_irrefl (a : Date) : dateLt a a = false := by
  simp [dateLt]

lemma dateLe_eq_not_lt (a b : Date) : dateLe b a = !dateLt a b := by
  rw [Bool.eq_iff_iff]
  simp only [dateLe, Bool.or_eq_true, beq_iff_eq, Bool.not_eq_true',
    ← Bool.not_eq_true, dateLt_iff]
  obtain ⟨y1, m1, d1⟩ := a
  obtain ⟨y2, m2, d2⟩ := b
  simp only [Date.mk.injEq]
  omega

lemma dateLt_ne {a b : Date} (h : dateLt a b = true) : a ≠ b := by
  intro he
  rw [he, dateLt_irrefl] at h
  exact Bool.false_ne_true h

lemma dateLt_of_not_le {a b : Date} (h : dateLe b a = false) : dateLt a b = true := by
  rw [dateLe_eq_not_lt] at h
  simpa using h

lemma dateLe_of_lt {a b : Date} (h : dateLt a b = true) : dateLe a b = true := by
  simp [dateLe, h]

lemma addOneDay_lt {d d' : Date} (h : addOneDay d = some d') : dateLt d d' = true := by
  obtain ⟨y, m, dd⟩ := d
  obtain ⟨y', m', dd'⟩ := d'
  unfold addOneDay at h
  rw [dateLt_iff]
  split_ifs at h <;> simp_all <;> omega

/-! Helper lemmas characterising the attachment scan. -/

lemma scanPart_records_eq (env : DecodeEnv) (ext subj snd : String) (p : EmailPart) :
    (scanPart env ext subj snd p).2 =
      if partIsMatch env ext p then [(subj, snd, decode_text env p.filename)] else [] := by
  unfold scanPart partIsMatch
  cases h1 : p.maintype == "multipart" <;>
    cases h2 : p.contentDisposition.isNone <;>
      cases h3 : decode_text env p.filename != "" <;>
        cases h4 : pyEndsWith (decode_text env p.filename) ext <;>
          simp [h1, h2, h3, h4]

lemma scanParts_records_eq (env : DecodeEnv) (ext subj snd : String)
    (ps : List EmailPart) :
    (scanParts env ext subj snd ps).2 =
      (ps.filter (partIsMatch env ext)).map
        (fun p => (subj, snd, decode_text env p.filename)) := by
  induction ps with
  | nil => rfl
  | cons p ps ih =>
    simp only [scanParts, scanPart_records_eq, List.filter_cons]
    cases hp : partIsMatch env ext p <;> simp [hp, ih]

lemma processEmailId_records (env : DecodeEnv) (sess : ImapSession)
    (ext i : String) :
    (processEmailId env sess ext i).2 =
      if (sess.fetchResp i).1 == "OK"
      then (scanMessage env ext (sess.fetchResp i).2).2 else [] := by
  unfold processEmailId
  rcases h : sess.fetchResp i with ⟨typ, msg⟩
  cases ht : typ == "OK" <;> simp [h, ht, bne]

lemma processAllIds_records (env : DecodeEnv) (sess : ImapSession)
    (ext : String) (ids : List String) :
    (processAllIds env sess ext ids).2 =
      ids.flatMap (fun i =>
        if (sess.fetchResp i).1 == "OK"
        then (scanMessage env ext (sess.fetchResp i).2).2 else []) := by
  induction ids with
  | nil => rfl
  | cons i ids ih =>
    simp only [processAllIds, processEmailId_records, ih, List.flatMap_cons]

/-! Claim theorems. -/

/-- C1: for every valid date pair, `search_emails` selects the mailbox and
then issues exactly the query whose inclusive `SINCE` bound is the start
date and whose exclusive `BEFORE` bound is the end date plus one calendar
day; that upper-bound date is never the raw end date, and a message dated
exactly on the end date falls inside the queried range under the server's
`SINCE`/`BEFORE` semantics. -/
theorem search_query_uses_since_and_next_day_before
    (sess : ImapSession) (mailbox start_date end_date : String) (s e e1 : Date)
    (hs : strptimeDMY start_date = some s) (he : strptimeDMY end_date = some e)
    (hle : dateLe e s = false) (hnext : addOneDay e = some e1) :
    (∃ rest, (search_emails sess mailbox start_date end_date).1 =
      Ev.selectOp mailbox ::
        Ev.searchOp (searchQuery (strftimeDMY s) (strftimeDMY e1)) :: rest) ∧
    e1 ≠ e ∧ imapDateMatch e s e1 = true := by
  refine ⟨?_, ?_, ?_⟩
  · unfold search_emails
    simp only [hs, he, hle, hnext, Bool.false_eq_true, if_false]
    rcases hq : sess.searchResp (searchQuery (strftimeDMY s) (strftimeDMY e1))
      with ⟨typ, payload⟩
    cases ht : typ != "OK" <;> simp [hq, ht]
  · exact (dateLt_ne (addOneDay_lt hnext)).symm
  · have h1 : dateLt s e = true := dateLt_of_not_le hle
    simp [imapDateMatch, dateLe_of_lt h1, addOneDay_lt hnext]

/-- Witness for C1 at the orchestrator's own range 01-Mar-2024 to
04-Mar-2024: the query's `BEFORE` bound is 05-Mar-2024. -/
theorem search_query_uses_since_and_next_day_before_witness :
    (∃ rest, (search_emails fixtureSess ("INBOX") ("01-Mar-2024") ("04-Mar-2024")).1 =
      Ev.selectOp ("INBOX") ::
        Ev.searchOp (searchQuery (strftimeDMY ⟨2024, 3, 1⟩) (strftimeDMY ⟨2024, 3, 5⟩)) ::
          rest) ∧
    (⟨2024, 3, 5⟩ : Date) ≠ ⟨2024, 3, 4⟩ ∧
    imapDateMatch ⟨2024, 3, 4⟩ ⟨2024, 3, 1⟩ ⟨2024, 3, 5⟩ = true :=
  search_query_uses_since_and_next_day_before fixtureSess ("INBOX")
    ("01-Mar-2024") ("04-Mar-2024") ⟨2024, 3, 1⟩ ⟨2024, 3, 4⟩ ⟨2024, 3, 5⟩
    rfl rfl (by decide) (by decide)

/-- C2: when the server answers the search with a non-success status,
`search_emails` logs an error and returns `.ok []` — not a failure — which
is the same value a genuinely empty mailbox produces (`splitImapIds` of an
empty payload is also `[]`). -/
theorem search_failure_returns_empty
    (sess : ImapSession) (mailbox start_date end_date : String) (s e e1 : Date)
    (typ payload : String)
    (hs : strptimeDMY start_date = some s) (he : strptimeDMY end_date = some e)
    (hle : dateLe e s = false) (hnext : addOneDay e = some e1)
    (hresp : sess.searchResp (searchQuery (strftimeDMY s) (strftimeDMY e1)) =
      (typ, payload)) :
    (typ ≠ "OK" →
      (search_emails sess mailbox start_date end_date).2 = .ok [] ∧
      Ev.logError ("Error searching Inbox. IMAP search did not return \"OK\".") ∈
        (search_emails sess mailbox start_date end_date).1) ∧
    (typ = "OK" →
      (search_emails sess mailbox start_date end_date).2 = .ok (splitImapIds payload)) ∧
    splitImapIds ("") = [] := by
  refine ⟨?_, ?_, rfl⟩
  · intro hne
    unfold search_emails
    have ht : (typ != "OK") = true := by simp [bne, hne]
    simp only [hs, he, hle, hnext, hresp, ht, Bool.false_eq_true, if_false, if_true]
    simp
  · intro heq
    unfold search_emails
    subst heq
    simp only [hs, he, hle, hnext, hresp, Bool.false_eq_true, if_false]
    simp

/-- Witness for C2 on the fixture server that answers the search with
`"NO"`: the caller receives `.ok []` and the error is logged. -/
theorem search_failure_returns_empty_witness :
    (search_emails failSess ("INBOX") ("01-Mar-2024") ("04-Mar-2024")).2 = .ok [] ∧
    Ev.logError ("Error searching Inbox. IMAP search did not return \"OK\".") ∈
      (search_emails failSess ("INBOX") ("01-Mar-2024") ("04-Mar-2024")).1 :=
  (search_failure_returns_empty failSess ("INBOX") ("01-Mar-2024") ("04-Mar-2024")
    ⟨2024, 3, 1⟩ ⟨2024, 3, 4⟩ ⟨2024, 3, 5⟩ "NO" "" rfl rfl (by decide) (by decide)
    rfl).1 (by decide)

/-- C3: a failed fetch is isolated — the collected records are exactly the
concatenation, identifier by identifier, of the records of successfully
fetched messages, so a failed identifier contributes nothing and every
other identifier is still processed; concretely, with identifier 2 of
three failing, the records of identifiers 1 and 3 are both returned. -/
theorem fetch_failure_isolated :
    (∀ (env : DecodeEnv) (sess : ImapSession) (ids : List String) (ext : String),
      (get_attachments_info env sess ids ext).2 =
        ids.flatMap (fun i =>
          if (sess.fetchResp i).1 == "OK"
          then (scanMessage env ext (sess.fetchResp i).2).2 else [])) ∧
    (get_attachments_info failEnv fixtureSess ["1", "2", "3"] (".pdf")).2 =
      [("Invoice March", "billing@example.com", "invoice.pdf"),
       ("Report", "alice@example.com", "report.pdf")] := by
  refine ⟨?_, rfl⟩
  intro env sess ids ext
  exact processAllIds_records env sess ext ids

/-- C5: the scanner records a `(subject, sender, filename)` triple exactly
for the non-multipart parts that carry a `Content-Disposition` header and
whose decoded filename is non-empty and ends with the target extension
(`partIsMatch`); concretely, the invoice.pdf message yields exactly one
record under the filter ".pdf", zero under ".docx", and zero under ".PDF"
(the suffix match is case-sensitive). -/
theorem attachment_record_iff_matching_part :
    (∀ (env : DecodeEnv) (ext : String) (msg : EmailMessage),
      (scanMessage env ext msg).2 =
        (msg.parts.filter (partIsMatch env ext)).map
          (fun p => (decode_text env msg.subject, decode_text env msg.sender,
            decode_text env p.filename))) ∧
    (get_attachments_info failEnv fixtureSess ["1"] (".pdf")).2 =
      [("Invoice March", "billing@example.com", "invoice.pdf")] ∧
    (get_attachments_info failEnv fixtureSess ["1"] (".docx")).2 = [] ∧
    (get_attachments_info failEnv fixtureSess ["1"] (".PDF")).2 = [] := by
  refine ⟨?_, rfl, rfl, rfl⟩
  intro env ext msg
  exact scanParts_records_eq env ext (decode_text env msg.subject)
    (decode_text env msg.sender) msg.parts

/-- C4: `validate_date_range` succeeds on every pair of parseable date
strings with start strictly before end, fails with the range error when
both parse but start is not strictly before end, and fails with a parse
error on whichever string does not match the `%d-%b-%Y` format. -/
theorem validate_date_range_correct (start_date end_date : String) :
    (∀ s e, strptimeDMY start_date = some s → strptimeDMY end_date = some e →
      (dateLt s e = true →
        validate_date_range start_date end_date = .ok ()) ∧
      (dateLt s e = false →
        validate_date_range start_date end_date = .error .rangeError)) ∧
    (strptimeDMY start_date = none →
      validate_date_range start_date end_date = .error (.parseError start_date)) ∧
    (∀ s, strptimeDMY start_date = some s → strptimeDMY end_date = none →
      validate_date_range start_date end_date = .error (.parseError end_date)) := by
  refine ⟨?_, ?_, ?_⟩
  · intro s e hs he
    constructor
    · intro hlt
      unfold validate_date_range
      rw [hs, he]
      have hle : dateLe e s = false := by rw [dateLe_eq_not_lt, hlt]; rfl
      simp [hle]
    · intro hlt
      unfold validate_date_range
      rw [hs, he]
      have hle : dateLe e s = true := by rw [dateLe_eq_not_lt, hlt]; rfl
      simp [hle]
  · intro h
    unfold validate_date_range
    rw [h]
  · intro s hs h
    unfold validate_date_range
    rw [hs, h]

/-- Witness for C4: a valid range is accepted, an equal pair is rejected
with the range error, and a string in the wrong format is rejected with a
parse error. -/
theorem validate_date_range_correct_witness :
    validate_date_range ("01-Mar-2024") ("04-Mar-2024") = .ok () ∧
    validate_date_range ("04-Mar-2024") ("04-Mar-2024") = .error .rangeError ∧
    validate_date_range ("2024-03-01") ("04-Mar-2024") =
      .error (.parseError ("2024-03-01")) :=
  ⟨((validate_date_range_correct ("01-Mar-2024") ("04-Mar-2024")).1
      ⟨2024, 3, 1⟩ ⟨2024, 3, 4⟩ rfl rfl).1 (by decide),
   ((validate_date_range_correct ("04-Mar-2024") ("04-Mar-2024")).1
      ⟨2024, 3, 4⟩ ⟨2024, 3, 4⟩ rfl rfl).2 (by decide),
   (validate_date_range_correct ("2024-03-01") ("04-Mar-2024")).2.1 rfl⟩

/-- C6: `connect_to_imap_server` always returns either a session or the
`None` failure indicator — a protocol-level error from the SSL constructor
or the login call is caught and logged, a non-success login status is
logged, and only an `"OK"` login yields a session; the Lean embedding is a
total function, so no exception escapes to the caller. -/
theorem connect_returns_session_or_failure {σ : Type} (env : ConnEnv σ)
    (server username password : String) :
    (∀ m, env.sslConnect server = .error (.protoError m) →
      connect_to_imap_server env server username password =
        ([Ev.logError ("IMAP login error: " ++ m)], none)) ∧
    (∀ sess m, env.sslConnect server = .ok sess →
      env.loginResp sess username password = .error (.protoError m) →
      connect_to_imap_server env server username password =
        ([Ev.logError ("IMAP login error: " ++ m)], none)) ∧
    (∀ sess typ d, env.sslConnect server = .ok sess →
      env.loginResp sess username password = .ok (typ, d) → typ ≠ "OK" →
      connect_to_imap_server env server username password =
        ([Ev.logError ("Not able to sign in!")], none)) ∧
    (∀ sess d, env.sslConnect server = .ok sess →
      env.loginResp sess username password = .ok ("OK", d) →
      connect_to_imap_server env server username password =
        ([Ev.logInfo ("IMAP connection successful")], some sess)) := by
  refine ⟨?_, ?_, ?_, ?_⟩
  · intro m h
    unfold connect_to_imap_server
    simp only [h]
  · intro sess m h1 h2
    unfold connect_to_imap_server
    simp only [h1, h2]
  · intro sess typ d h1 h2 h3
    unfold connect_to_imap_server
    have ht : (typ != "OK") = true := by simp [bne, h3]
    simp only [h1, h2, ht, if_true]
  · intro sess d h1 h2
    unfold connect_to_imap_server
    simp only [h1, h2]
    simp

/-- Witness for C6: a fixture whose constructor raises yields the logged
failure indicator, and a fixture whose login is refused yields it too. -/
theorem connect_returns_session_or_failure_witness :
    connect_to_imap_server connEnvDown ("imap.example.com") ("u") ("p") =
      ([Ev.logError ("IMAP login error: no route to host")], none) ∧
    connect_to_imap_server connEnvBadLogin ("imap.example.com") ("u") ("p") =
      ([Ev.logError ("Not able to sign in!")], none) :=
  ⟨(connect_returns_session_or_failure connEnvDown ("imap.example.com") ("u") ("p")).1
      "no route to host" rfl,
   (connect_returns_session_or_failure connEnvBadLogin ("imap.example.com") ("u")
      ("p")).2.2.1 7 "NO" "denied" rfl rfl (by decide)⟩

/-- C7: `close_imap_session` does nothing when no session is present, and
with a session present it issues one logout attempt and returns the same
unit value whatever the logout response is — the response is discarded, so
a failure to log out is never surfaced to the caller. -/
theorem close_is_best_effort {σ : Type} (env env' : CloseEnv σ) (s : σ) :
    close_imap_session env (none : Option σ) = ([], ()) ∧
    close_imap_session env (some s) = ([Ev.logoutOp], ()) ∧
    close_imap_session env (some s) = close_imap_session env' (some s) :=
  ⟨rfl, rfl, rfl⟩

/-- C8: `decode_text` is total — absent input yields `""`, a plain string
passes through unchanged, and byte input yields the header decode when it
succeeds and the raw replacement-character decode under the default
charset when the header decode raises. -/
theorem decode_text_never_raises (env : DecodeEnv) (b : List Nat) (s m r : String) :
    decode_text env none = "" ∧
    decode_text env (some (.str s)) = s ∧
    (env.hdrDecode b = .error m →
      decode_text env (some (.bytes b)) = env.rawDecode b) ∧
    (env.hdrDecode b = .ok r → decode_text env (some (.bytes b)) = r) := by
  refine ⟨rfl, rfl, ?_, ?_⟩
  · intro h
    show (match env.hdrDecode b with
          | .ok s => s
          | .error _ => env.rawDecode b) = env.rawDecode b
    rw [h]
  · intro h
    show (match env.hdrDecode b with
          | .ok s => s
          | .error _ => env.rawDecode b) = r
    rw [h]

/-- Witness for C8 on the fixture codec whose header decode always raises:
malformed bytes produce the fallback string. -/
theorem decode_text_never_raises_witness :
    decode_text failEnv none = "" ∧
    decode_text failEnv (some (.bytes [226, 130])) = "fallback" :=
  ⟨(decode_text_never_raises failEnv [] "" "" "").1,
   (decode_text_never_raises failEnv [226, 130] "" ("unknown encoding") "").2.2.1 rfl⟩

/-- C9: when `validate_date_range` fails, `search_emails` propagates the
same error with an empty event trace — no mailbox select and no search
request was issued. -/
theorem search_validates_before_any_network_call
    (sess : ImapSession) (mailbox start_date end_date : String) (err : PyErr)
    (h : validate_date_range start_date end_date = .error err) :
    search_emails sess mailbox start_date end_date = ([], .error err) := by
  unfold validate_date_range at h
  unfold search_emails
  cases hs : strptimeDMY start_date with
  | none => rw [hs] at h; simp_all
  | some s =>
    rw [hs] at h
    cases he : strptimeDMY end_date with
    | none => rw [he] at h; simp_all
    | some e =>
      rw [he] at h
      by_cases hle : dateLe e s = true
      · simp_all
      · simp_all

/-- Witness for C9 on a reversed range: the call fails with the range
error and the trace is empty. -/
theorem search_validates_before_any_network_call_witness :
    search_emails fixtureSess ("INBOX") ("04-Mar-2024") ("01-Mar-2024") =
      ([], .error .rangeError) :=
  search_validates_before_any_network_call fixtureSess ("INBOX")
    ("04-Mar-2024") ("01-Mar-2024") .rangeError rfl

/-- C10: every triple returned by `get_attachments_info` has a filename
component that is non-empty and ends with the requested extension; a part
whose filename decodes to `""` (including an absent filename, which
`decode_text` maps to `""`) never produces a record. -/
theorem record_filename_nonempty_and_matches
    (env : DecodeEnv) (sess : ImapSession) (ids : List String) (ext : String)
    (t : String × String × String)
    (ht : t ∈ (get_attachments_info env sess ids ext).2) :
    t.2.2 ≠ "" ∧ pyEndsWith t.2.2 ext = true := by
  have hrec : (get_attachments_info env sess ids ext).2 =
      (processAllIds env sess ext ids).2 := rfl
  rw [hrec, processAllIds_records] at ht
  simp only [List.mem_flatMap] at ht
  obtain ⟨i, _, hmem⟩ := ht
  split at hmem
  case isFalse => simp at hmem
  case isTrue =>
    rw [show (scanMessage env ext (sess.fetchResp i).2).2 =
        (scanParts env ext (decode_text env (sess.fetchResp i).2.subject)
          (decode_text env (sess.fetchResp i).2.sender)
          (sess.fetchResp i).2.parts).2 from rfl,
      scanParts_records_eq] at hmem
    simp only [List.mem_map, List.mem_filter] at hmem
    obtain ⟨p, ⟨_, hmatch⟩, hteq⟩ := hmem
    subst hteq
    simp only [partIsMatch, Bool.and_eq_true, bne_iff_ne, ne_eq] at hmatch
    exact ⟨hmatch.1.2, hmatch.2⟩

/-- Witness for C10: the invoice record produced by the fixture server has
the non-empty filename invoice.pdf ending in ".pdf". -/
theorem record_filename_nonempty_and_matches_witness :
    ("Invoice March", "billing@example.com", "invoice.pdf") ∈
      (get_attachments_info failEnv fixtureSess ["1"] (".pdf")).2 ∧
    ("invoice.pdf" : String) ≠ "" ∧ pyEndsWith ("invoice.pdf") (".pdf") = true :=
  ⟨by decide,
   record_filename_nonempty_and_matches failEnv fixtureSess ["1"] (".pdf")
     ("Invoice March", "billing@example.com", "invoice.pdf") (by decide)⟩

end ScriptWithMail
